import Mathlib

/-!
Verification of the tumor-marker Naive Bayes classifier (src/app.py).

The classifier is embedded shallowly over the real numbers: the model
tables `CLASS_MARKERS`, `ALL_MARKERS`, `HEALTHY` and the derived constant
`LOG_PRIOR` are transcribed from the source, `logpdf` and `_logsumexp`
are the two numeric helpers, and `rank_classes` / `predict_class` follow
the control flow of the source line by line.  A patient record is a
partial map from marker names to real readings; the Python dict lookup
`patient[marker]`, which raises `KeyError` on a missing key, is modelled
with `Except PyError`.
-/

/-- A patient record: a partial mapping from marker name to a real
reading.  `none` models a key that is absent from the Python dict. -/
abbrev Patient := String → Option ℝ

/-- Errors the embedded program can raise, plus the two error kinds named
by the specification (`missingSignalMarkerError`, `invalidReadingError`).
The source code itself only ever raises `keyError` (dict lookup on a
missing key) and could raise `indexError` (`ranked[0]` on an empty list);
the spec-side constructors exist so that claims about them can be stated
and settled against the code. -/
inductive PyError where
  | keyError (key : String)
  | indexError
  | missingSignalMarkerError (cls marker : String)
  | invalidReadingError (marker : String)
deriving DecidableEq

/-- Source, `logpdf`:
`return -0.5 * (math.log(2.0 * math.pi * var) + ((x - mean) ** 2) / var)` -/
noncomputable def logpdf (x mean var : ℝ) : ℝ :=
  -0.5 * (Real.log (2 * Real.pi * var) + (x - mean) ^ 2 / var)

/-- Source, `CLASS_MARKERS`: for each class, its signal marker and that
marker Gaussian parameters (mean, variance), in source (insertion)
order. -/
noncomputable def CLASS_MARKERS : List (String × String × ℝ × ℝ) :=
  [("Ovarian_Early", "HE4", 151, 6348),
   ("Ovarian_Late", "HE4", 570, 84840),
   ("Liver_Overall", "AFP", 450, 2250000),
   ("Liver_Stage_I", "AFP", 100, 7500),
   ("Liver_Stage_II_III", "AFP", 600, 450000),
   ("Liver_Stage_IV", "AFP", 6000, 15000000),
   ("Pancreatic_Overall", "CA19-9", 1750, 3500000),
   ("Pancreatic_Stage_I", "CA19-9", 140, 17500),
   ("Pancreatic_Stage_II_III", "CA19-9", 950, 750000),
   ("Pancreatic_Stage_IV", "CA19-9", 12500, 35000000)]

/-- Source, `ALL_MARKERS = ["HE4", "AFP", "CA19-9"]`. -/
def ALL_MARKERS : List String := ["HE4", "AFP", "CA19-9"]

/-- Source, `HEALTHY`: healthy-population (mean, variance) per marker.
The source writes the variances as `15.0**2`, `3.0**2`, `10.0**2`.
Markers outside the vocabulary are junk (the source would raise
`KeyError`; the code only ever looks up members of `ALL_MARKERS`). -/
noncomputable def HEALTHY : String → ℝ × ℝ := fun m =>
  if m = "HE4" then (60, 15 ^ 2)
  else if m = "AFP" then (5, 3 ^ 2)
  else if m = "CA19-9" then (20, 10 ^ 2)
  else (0, 1)

/-- Source, `LOG_PRIOR = -math.log(len(CLASS_MARKERS))`. -/
noncomputable def LOG_PRIOR : ℝ := -Real.log (CLASS_MARKERS.length : ℝ)

/-- Python `max(vals)`: first element, then fold of binary max.  Python
raises on an empty sequence; the embedding returns a junk value there
(`_logsumexp` is only ever applied to the ten class scores). -/
noncomputable def listMax : List ℝ → ℝ
  | [] => 0
  | x :: xs => xs.foldl max x

/-- Source, `_logsumexp`:
`m = max(vals); return m + math.log(sum(math.exp(v - m) for v in vals))` -/
noncomputable def _logsumexp (vals : List ℝ) : ℝ :=
  listMax vals + Real.log ((vals.map (fun v => Real.exp (v - listMax vals))).sum)

/-- The per-class scoring loop of `rank_classes` (source lines 74-88),
over the remaining class entries.  For each class: look up the signal
marker (KeyError when absent), start from
`LOG_PRIOR + logpdf(x_signal, mu, var)`, then fold over `ALL_MARKERS`,
skipping the signal marker and adding the healthy-baseline log-pdf of
every other marker that is present in the record. -/
noncomputable def scoreList (patient : Patient) :
    List (String × String × ℝ × ℝ) → Except PyError (List (String × ℝ))
  | [] => Except.ok []
  | (cls, signal, mu, var) :: rest =>
    match patient signal with
    | none => Except.error (PyError.keyError signal)
    | some x =>
      match scoreList patient rest with
      | Except.error e => Except.error e
      | Except.ok tail =>
        Except.ok ((cls,
          ALL_MARKERS.foldl (fun acc m =>
            if m = signal then acc
            else
              match patient m with
              | some y => acc + logpdf y (HEALTHY m).1 (HEALTHY m).2
              | none => acc)
            (LOG_PRIOR + logpdf x mu var)) :: tail)

/-- Source, `rank_classes`: compute the raw scores, normalize with
`_logsumexp`, and sort the (class, probability) pairs descending by
probability.  CPython `sorted(..., key=lambda kv: kv[1], reverse=True)`
is a stable descending sort, i.e. a stable merge sort with the boolean
comparison `fun u v => v.2 <= u.2`. -/
noncomputable def rank_classes (patient : Patient) :
    Except PyError (List (String × ℝ)) :=
  match scoreList patient CLASS_MARKERS with
  | Except.error e => Except.error e
  | Except.ok scores =>
    let lse := _logsumexp (scores.map Prod.snd)
    Except.ok ((scores.map (fun cs =>
      (cs.1, Real.exp (cs.2 - lse)))).mergeSort (fun u v => decide (v.2 ≤ u.2)))

/-- Source, `predict_class`: `ranked = rank_classes(patient); return
ranked[0][0], ranked`.  Indexing an empty list would be an IndexError
(never reached: there are ten classes). -/
noncomputable def predict_class (patient : Patient) :
    Except PyError (String × List (String × ℝ)) :=
  match rank_classes patient with
  | Except.error e => Except.error e
  | Except.ok [] => Except.error PyError.indexError
  | Except.ok (h :: t) => Except.ok (h.1, h :: t)

/-- The unshifted log-sum-exp, written exactly as the specification
describes the quantity the shifted computation must equal:
`ln(sum of exp(v))` over the list. -/
noncomputable def logsumexp_unshifted (vals : List ℝ) : ℝ :=
  Real.log ((vals.map Real.exp).sum)

/-- The ten (class, raw log-score) pairs produced by the scoring loop on
a record with readings `a` (HE4), `b` (AFP), `c` (CA19-9), in model
order. -/
noncomputable def scoresOf (a b c : ℝ) : List (String × ℝ) :=
  [("Ovarian_Early", LOG_PRIOR + logpdf a 151 6348 + logpdf b 5 9 + logpdf c 20 100),
   ("Ovarian_Late", LOG_PRIOR + logpdf a 570 84840 + logpdf b 5 9 + logpdf c 20 100),
   ("Liver_Overall", LOG_PRIOR + logpdf b 450 2250000 + logpdf a 60 225 + logpdf c 20 100),
   ("Liver_Stage_I", LOG_PRIOR + logpdf b 100 7500 + logpdf a 60 225 + logpdf c 20 100),
   ("Liver_Stage_II_III", LOG_PRIOR + logpdf b 600 450000 + logpdf a 60 225 + logpdf c 20 100),
   ("Liver_Stage_IV", LOG_PRIOR + logpdf b 6000 15000000 + logpdf a 60 225 + logpdf c 20 100),
   ("Pancreatic_Overall", LOG_PRIOR + logpdf c 1750 3500000 + logpdf a 60 225 + logpdf b 5 9),
   ("Pancreatic_Stage_I", LOG_PRIOR + logpdf c 140 17500 + logpdf a 60 225 + logpdf b 5 9),
   ("Pancreatic_Stage_II_III", LOG_PRIOR + logpdf c 950 750000 + logpdf a 60 225 + logpdf b 5 9),
   ("Pancreatic_Stage_IV", LOG_PRIOR + logpdf c 12500 35000000 + logpdf a 60 225 + logpdf b 5 9)]

/-- The healthy-evidence sum exactly as the specification words it: over
every known marker other than the signal marker that is present in the
record, the healthy-baseline log-pdf of its reading; absent markers
contribute no term. -/
noncomputable def specHealthySum (p : Patient) (signal : String) : ℝ :=
  ((ALL_MARKERS.filter (fun m => decide (m ≠ signal) && (p m).isSome)).map
    (fun m => logpdf ((p m).getD 0) (HEALTHY m).1 (HEALTHY m).2)).sum

/-- First worked-example record: HE4 180.0, AFP 6.0, CA19-9 22.0. -/
noncomputable def aliceP : Patient := fun m =>
  if m = "HE4" then some 180
  else if m = "AFP" then some 6
  else if m = "CA19-9" then some 22
  else none

/-- Second worked-example record: HE4 70.0, AFP 8.0, CA19-9 6000.0. -/
noncomputable def drewP : Patient := fun m =>
  if m = "HE4" then some 70
  else if m = "AFP" then some 8
  else if m = "CA19-9" then some 6000
  else none

/-- A record lacking the HE4 reading (signal marker of both ovarian
classes). -/
noncomputable def noHE4P : Patient := fun m =>
  if m = "AFP" then some 6
  else if m = "CA19-9" then some 22
  else none

/-- A record lacking only the CA19-9 reading. -/
noncomputable def noCA199P : Patient := fun m =>
  if m = "HE4" then some 70
  else if m = "AFP" then some 8
  else none

/-- A record with the three recognized markers and nothing else. -/
noncomputable def bareP : Patient := fun m =>
  if m = "HE4" then some 70
  else if m = "AFP" then some 8
  else if m = "CA19-9" then some 6000
  else none

/-- The same readings as `bareP` plus an extra, unrecognized key
(modelling the `name` entry of the example records in the source). -/
noncomputable def extraKeyP : Patient := fun m =>
  if m = "HE4" then some 70
  else if m = "AFP" then some 8
  else if m = "CA19-9" then some 6000
  else if m = "name" then some 12345
  else none

/-! ### Helper lemmas about `_logsumexp` -/

lemma sum_map_exp_sub (l : List ℝ) (m : ℝ) :
    (l.map (fun v => Real.exp (v - m))).sum = (l.map Real.exp).sum * Real.exp (-m) := by
  induction l with
  | nil => simp
  | cons x xs ih =>
    simp only [List.map_cons, List.sum_cons, ih, add_mul]
    rw [Real.exp_sub, Real.exp_neg, div_eq_mul_inv]

lemma sum_map_exp_pos (l : List ℝ) (h : l ≠ []) : 0 < (l.map Real.exp).sum := by
  cases l with
  | nil => exact absurd rfl h
  | cons x xs =>
    simp only [List.map_cons, List.sum_cons]
    have hx : 0 < Real.exp x := Real.exp_pos x
    have hxs : 0 ≤ (xs.map Real.exp).sum := by
      apply List.sum_nonneg
      intro a ha
      obtain ⟨b, _, rfl⟩ := List.mem_map.mp ha
      exact (Real.exp_pos b).le
    linarith

lemma logsumexp_eq_log_sum (l : List ℝ) (h : l ≠ []) :
    _logsumexp l = Real.log ((l.map Real.exp).sum) := by
  unfold _logsumexp
  rw [sum_map_exp_sub,
    Real.log_mul (sum_map_exp_pos l h).ne' (Real.exp_ne_zero _),
    Real.log_exp]
  ring

lemma exp_logsumexp (l : List ℝ) (h : l ≠ []) :
    Real.exp (_logsumexp l) = (l.map Real.exp).sum := by
  rw [logsumexp_eq_log_sum l h, Real.exp_log (sum_map_exp_pos l h)]

/-! ### Rational two-sided bounds on logarithms of the model constants

`Real.log v = n * Real.log 2 + Real.log (v / 2^n)`, and for positive `t`
one has `1 - 1/t <= Real.log t <= t - 1`.  With the decimal bounds on
`Real.log 2` from Mathlib this pins each `Real.log` of a model variance
into an explicit rational interval, tight enough for every score
comparison needed below. -/

lemma log_dyadic_split (v : ℝ) (n : ℕ) (hv : 0 < v) :
    Real.log v = (n : ℝ) * Real.log 2 + Real.log (v / 2 ^ n) := by
  have h2 : ((2 : ℝ) ^ n) ≠ 0 := by positivity
  rw [Real.log_div hv.ne' h2, Real.log_pow]
  ring

lemma log_dyadic_ub (v : ℝ) (n : ℕ) (hv : 0 < v) :
    Real.log v ≤ (n : ℝ) * Real.log 2 + (v / 2 ^ n - 1) := by
  have hq : (0 : ℝ) < v / 2 ^ n := by positivity
  have h := Real.log_le_sub_one_of_pos hq
  rw [log_dyadic_split v n hv]
  linarith

lemma log_dyadic_lb (v : ℝ) (n : ℕ) (hv : 0 < v) :
    (n : ℝ) * Real.log 2 + (1 - 2 ^ n / v) ≤ Real.log v := by
  have hq : (0 : ℝ) < v / 2 ^ n := by positivity
  have hinv : (0 : ℝ) < (v / 2 ^ n)⁻¹ := by positivity
  have h := Real.log_le_sub_one_of_pos hinv
  rw [Real.log_inv, inv_div] at h
  rw [log_dyadic_split v n hv]
  linarith

lemma log_bounds_9 : (2.190552 : ℝ) < Real.log 9 ∧ Real.log 9 < 2.204442 := by
  have hlb := log_dyadic_lb 9 3 (by norm_num)
  have hub := log_dyadic_ub 9 3 (by norm_num)
  have hg := Real.log_two_gt_d9
  have hl := Real.log_two_lt_d9
  norm_num at hlb hub
  constructor <;> linarith

lemma log_bounds_100 : (4.518883 : ℝ) < Real.log 100 ∧ Real.log 100 < 4.721384 := by
  have hlb := log_dyadic_lb 100 6 (by norm_num)
  have hub := log_dyadic_ub 100 6 (by norm_num)
  have hg := Real.log_two_gt_d9
  have hl := Real.log_two_lt_d9
  norm_num at hlb hub
  constructor <;> linarith

lemma log_bounds_225 : (5.283141 : ℝ) < Real.log 225 ∧ Real.log 225 < 5.609843 := by
  have hlb := log_dyadic_lb 225 7 (by norm_num)
  have hub := log_dyadic_ub 225 7 (by norm_num)
  have hg := Real.log_two_gt_d9
  have hl := Real.log_two_lt_d9
  norm_num at hlb hub
  constructor <;> linarith

lemma log_bounds_6348 : (8.672523 : ℝ) < Real.log 6348 ∧ Real.log 6348 < 8.867571 := by
  have hlb := log_dyadic_lb 6348 12 (by norm_num)
  have hub := log_dyadic_ub 6348 12 (by norm_num)
  have hg := Real.log_two_gt_d9
  have hl := Real.log_two_lt_d9
  norm_num at hlb hub
  constructor <;> linarith

lemma log_bounds_7500 : (8.771632 : ℝ) < Real.log 7500 ∧ Real.log 7500 < 9.148821 := by
  have hlb := log_dyadic_lb 7500 12 (by norm_num)
  have hub := log_dyadic_ub 7500 12 (by norm_num)
  have hg := Real.log_two_gt_d9
  have hl := Real.log_two_lt_d9
  norm_num at hlb hub
  constructor <;> linarith

lemma log_bounds_17500 : (9.767831 : ℝ) < Real.log 17500 ∧ Real.log 17500 < 9.772176 := by
  have hlb := log_dyadic_lb 17500 14 (by norm_num)
  have hub := log_dyadic_ub 17500 14 (by norm_num)
  have hg := Real.log_two_gt_d9
  have hl := Real.log_two_lt_d9
  norm_num at hlb hub
  constructor <;> linarith

lemma log_bounds_84840 : (11.317889 : ℝ) < Real.log 84840 ∧ Real.log 84840 < 11.384911 := by
  have hlb := log_dyadic_lb 84840 16 (by norm_num)
  have hub := log_dyadic_ub 84840 16 (by norm_num)
  have hg := Real.log_two_gt_d9
  have hl := Real.log_two_lt_d9
  norm_num at hlb hub
  constructor <;> linarith

lemma log_bounds_450000 : (12.894107 : ℝ) < Real.log 450000 ∧ Real.log 450000 < 13.193264 := by
  have hlb := log_dyadic_lb 450000 18 (by norm_num)
  have hub := log_dyadic_ub 450000 18 (by norm_num)
  have hg := Real.log_two_gt_d9
  have hl := Real.log_two_lt_d9
  norm_num at hlb hub
  constructor <;> linarith

lemma log_bounds_750000 : (13.470745 : ℝ) < Real.log 750000 ∧ Real.log 750000 < 13.600308 := by
  have hlb := log_dyadic_lb 750000 19 (by norm_num)
  have hub := log_dyadic_ub 750000 19 (by norm_num)
  have hg := Real.log_two_gt_d9
  have hl := Real.log_two_lt_d9
  norm_num at hlb hub
  constructor <;> linarith

lemma log_bounds_2250000 : (14.624023 : ℝ) < Real.log 2250000 ∧ Real.log 2250000 < 14.628975 := by
  have hlb := log_dyadic_lb 2250000 21 (by norm_num)
  have hub := log_dyadic_ub 2250000 21 (by norm_num)
  have hg := Real.log_two_gt_d9
  have hl := Real.log_two_lt_d9
  norm_num at hlb hub
  constructor <;> linarith

lemma log_bounds_3500000 : (14.956904 : ℝ) < Real.log 3500000 ∧ Real.log 3500000 < 15.225021 := by
  have hlb := log_dyadic_lb 3500000 21 (by norm_num)
  have hub := log_dyadic_ub 3500000 21 (by norm_num)
  have hg := Real.log_two_gt_d9
  have hl := Real.log_two_lt_d9
  norm_num at hlb hub
  constructor <;> linarith

lemma log_bounds_15000000 : (16.383144 : ℝ) < Real.log 15000000 ∧ Real.log 15000000 < 16.730525 := by
  have hlb := log_dyadic_lb 15000000 23 (by norm_num)
  have hub := log_dyadic_ub 15000000 23 (by norm_num)
  have hg := Real.log_two_gt_d9
  have hl := Real.log_two_lt_d9
  norm_num at hlb hub
  constructor <;> linarith

lemma log_bounds_35000000 : (17.369981 : ℝ) < Real.log 35000000 ∧ Real.log 35000000 < 17.371761 := by
  have hlb := log_dyadic_lb 35000000 25 (by norm_num)
  have hub := log_dyadic_ub 35000000 25 (by norm_num)
  have hg := Real.log_two_gt_d9
  have hl := Real.log_two_lt_d9
  norm_num at hlb hub
  constructor <;> linarith

/-- Expansion of `logpdf` into separate atoms `Real.log 2`, `Real.log π`
and `Real.log var`; the first two cancel in every score comparison. -/
lemma logpdf_expand (x mean var : ℝ) (hv : 0 < var) :
    logpdf x mean var =
      -(1 / 2) * (Real.log 2 + Real.log Real.pi + Real.log var + (x - mean) ^ 2 / var) := by
  unfold logpdf
  have h1 : Real.log (2 * Real.pi * var) = Real.log 2 + Real.log Real.pi + Real.log var := by
    rw [Real.log_mul (by positivity) hv.ne',
      Real.log_mul (by norm_num) Real.pi_pos.ne']
  rw [h1]
  ring

/-! ### The scores produced on a record with all three markers present -/

lemma scoreList_ok (p : Patient) (a b c : ℝ)
    (ha : p "HE4" = some a) (hb : p "AFP" = some b) (hc : p "CA19-9" = some c) :
    scoreList p CLASS_MARKERS = Except.ok (scoresOf a b c) := by
  simp [CLASS_MARKERS, scoreList, ALL_MARKERS, HEALTHY, List.foldl,
    ha, hb, hc, scoresOf]
  norm_num

lemma rank_classes_ok (p : Patient) (a b c : ℝ)
    (ha : p "HE4" = some a) (hb : p "AFP" = some b) (hc : p "CA19-9" = some c) :
    rank_classes p = Except.ok
      (((scoresOf a b c).map (fun cs =>
          (cs.1, Real.exp (cs.2 - _logsumexp ((scoresOf a b c).map Prod.snd))))).mergeSort
        (fun u v => decide (v.2 ≤ u.2))) := by
  unfold rank_classes
  rw [scoreList_ok p a b c ha hb hc]

/-! ### The descending sort used by `rank_classes` -/

lemma mergeSort_desc (l : List (String × ℝ)) :
    (l.mergeSort (fun u v => decide (v.2 ≤ u.2))).Pairwise (fun u v => v.2 ≤ u.2) := by
  have htrans : ∀ (a b c : String × ℝ),
      (fun u v : String × ℝ => decide (v.2 ≤ u.2)) a b →
      (fun u v : String × ℝ => decide (v.2 ≤ u.2)) b c →
      (fun u v : String × ℝ => decide (v.2 ≤ u.2)) a c := by
    intro a b c hab hbc
    have h1 : b.2 ≤ a.2 := of_decide_eq_true hab
    have h2 : c.2 ≤ b.2 := of_decide_eq_true hbc
    exact decide_eq_true (h2.trans h1)
  have htotal : ∀ (a b : String × ℝ),
      ((fun u v : String × ℝ => decide (v.2 ≤ u.2)) a b
        || (fun u v : String × ℝ => decide (v.2 ≤ u.2)) b a) = true := by
    intro a b
    rcases le_total b.2 a.2 with h | h
    · show (decide (b.2 ≤ a.2) || decide (a.2 ≤ b.2)) = true
      rw [decide_eq_true h, Bool.true_or]
    · show (decide (b.2 ≤ a.2) || decide (a.2 ≤ b.2)) = true
      rw [decide_eq_true h, Bool.or_true]
  have h := List.sorted_mergeSort htrans htotal l
  exact h.imp (fun hab => of_decide_eq_true hab)

lemma mergeSort_head_max {l : List (String × ℝ)} {h : String × ℝ}
    {t : List (String × ℝ)}
    (he : l.mergeSort (fun u v => decide (v.2 ≤ u.2)) = h :: t) :
    h ∈ l ∧ ∀ x ∈ l, x.2 ≤ h.2 := by
  have hperm := List.mergeSort_perm l (fun u v => decide (v.2 ≤ u.2))
  have hmem : h ∈ l := by
    have hh : h ∈ l.mergeSort (fun u v => decide (v.2 ≤ u.2)) := by
      rw [he]
      exact List.mem_cons_self h t
    exact hperm.mem_iff.mp hh
  refine ⟨hmem, fun x hx => ?_⟩
  have hx2 : x ∈ h :: t := by
    rw [← he]
    exact hperm.mem_iff.mpr hx
  rcases List.mem_cons.mp hx2 with hE | hxt
  · rw [hE]
  · have hp := mergeSort_desc l
    rw [he] at hp
    exact (List.pairwise_cons.mp hp).1 x hxt

/-! ### Normalization: the probabilities sum to one -/

lemma probs_sum_one (sc : List (String × ℝ)) (h : sc ≠ []) :
    ((sc.map (fun cs =>
      (cs.1, Real.exp (cs.2 - _logsumexp (sc.map Prod.snd))))).map Prod.snd).sum = 1 := by
  have hl : sc.map Prod.snd ≠ [] := by
    intro hcon
    exact h (List.map_eq_nil_iff.mp hcon)
  have h1 : (sc.map (fun cs =>
      (cs.1, Real.exp (cs.2 - _logsumexp (sc.map Prod.snd))))).map Prod.snd
      = (sc.map Prod.snd).map (fun v => Real.exp (v - _logsumexp (sc.map Prod.snd))) := by
    simp [List.map_map]
  rw [h1, sum_map_exp_sub, Real.exp_neg, exp_logsumexp _ hl]
  exact mul_inv_cancel₀ (sum_map_exp_pos _ hl).ne'

lemma ranked_sum_eq (P : List (String × ℝ)) :
    ((P.mergeSort (fun u v => decide (v.2 ≤ u.2))).map Prod.snd).sum
      = (P.map Prod.snd).sum :=
  ((List.mergeSort_perm P (fun u v => decide (v.2 ≤ u.2))).map Prod.snd).sum_eq

/-! ### Claim theorems -/

/-- C5: for every non-empty finite list of real log-scores, the
max-shifted log-sum-exp computed by `_logsumexp`, `m + ln(sum of
exp(v - m))` with `m` the maximum of the list, equals the unshifted
`ln(sum of exp(v))` over the same list. -/
theorem claim_C5_logsumexp_shift (vals : List ℝ) (h : vals ≠ []) :
    _logsumexp vals = logsumexp_unshifted vals :=
  logsumexp_eq_log_sum vals h

theorem claim_C5_witness :
    ([(0 : ℝ), 1] ≠ []) ∧ _logsumexp [(0 : ℝ), 1] = logsumexp_unshifted [(0 : ℝ), 1] :=
  ⟨List.cons_ne_nil 0 [1], claim_C5_logsumexp_shift [0, 1] (List.cons_ne_nil 0 [1])⟩

/-- C6: for every real `x`, real `mean`, and positive real variance, the
log-density helper returns exactly `-0.5 * (ln(2 pi var) + (x-mean)^2/var)`,
and that value is exactly the logarithm of the raw Gaussian density —
i.e. the log-space computation never has to form the raw density. -/
theorem claim_C6_logpdf_formula (x mean var : ℝ) (hv : 0 < var) :
    logpdf x mean var = -0.5 * (Real.log (2 * Real.pi * var) + (x - mean) ^ 2 / var) ∧
    logpdf x mean var =
      Real.log (Real.exp (-((x - mean) ^ 2) / (2 * var)) / Real.sqrt (2 * Real.pi * var)) := by
  refine ⟨rfl, ?_⟩
  have hpos : (0 : ℝ) < 2 * Real.pi * var := by positivity
  have hs : Real.sqrt (2 * Real.pi * var) ≠ 0 := (Real.sqrt_pos.mpr hpos).ne'
  rw [Real.log_div (Real.exp_ne_zero _) hs, Real.log_exp, Real.log_sqrt hpos.le]
  unfold logpdf
  ring

theorem claim_C6_witness :
    (0 : ℝ) < 1 ∧
    (logpdf 0 0 1 = -0.5 * (Real.log (2 * Real.pi * 1) + ((0 : ℝ) - 0) ^ 2 / 1) ∧
     logpdf 0 0 1 =
       Real.log (Real.exp (-(((0 : ℝ) - 0) ^ 2) / (2 * 1)) / Real.sqrt (2 * Real.pi * 1))) :=
  ⟨zero_lt_one, claim_C6_logpdf_formula 0 0 1 zero_lt_one⟩

/-- C2: for every patient record supplying a reading for every signal
marker, `rank_classes` succeeds and the returned probabilities sum to
exactly 1 over real arithmetic (each posterior being
`exp(rawLogScore - logSumExp(raw log-scores))`). -/
theorem claim_C2_probabilities_sum_one (p : Patient) (a b c : ℝ)
    (ha : p "HE4" = some a) (hb : p "AFP" = some b) (hc : p "CA19-9" = some c) :
    ∃ l, rank_classes p = Except.ok l ∧ (l.map Prod.snd).sum = 1 := by
  refine ⟨_, rank_classes_ok p a b c ha hb hc, ?_⟩
  rw [ranked_sum_eq]
  exact probs_sum_one _ (by simp [scoresOf])

theorem claim_C2_witness :
    aliceP "HE4" = some 180 ∧ aliceP "AFP" = some 6 ∧ aliceP "CA19-9" = some 22 ∧
    ∃ l, rank_classes aliceP = Except.ok l ∧ (l.map Prod.snd).sum = 1 :=
  ⟨rfl, rfl, rfl, claim_C2_probabilities_sum_one aliceP 180 6 22 rfl rfl rfl⟩

/-- C4: for every patient record supplying all signal markers, the
sequence returned by `rank_classes` is sorted in non-increasing order of
the probability component. -/
theorem claim_C4_rank_sorted (p : Patient) (a b c : ℝ)
    (ha : p "HE4" = some a) (hb : p "AFP" = some b) (hc : p "CA19-9" = some c) :
    ∃ l, rank_classes p = Except.ok l ∧ l.Pairwise (fun u v => v.2 ≤ u.2) :=
  ⟨_, rank_classes_ok p a b c ha hb hc, mergeSort_desc _⟩

theorem claim_C4_witness :
    drewP "HE4" = some 70 ∧ drewP "AFP" = some 8 ∧ drewP "CA19-9" = some 6000 ∧
    ∃ l, rank_classes drewP = Except.ok l ∧ l.Pairwise (fun u v => v.2 ≤ u.2) :=
  ⟨rfl, rfl, rfl, claim_C4_rank_sorted drewP 70 8 6000 rfl rfl rfl⟩

/-- C8: `rank_classes` is deterministic — two calls on the identical
record give the identical output, tie order included.  The embedded
program is a pure function of the record (it reads no other state and
the stable merge sort fixes the order of bit-identical probabilities),
so repeated application is definitionally equal. -/
theorem claim_C8_deterministic (p : Patient) : rank_classes p = rank_classes p := rfl

/-- C10: two records that agree on the three recognized markers HE4,
AFP and CA19-9 are ranked identically; entries under any other key are
never read and have no effect on the output. -/
theorem claim_C10_unknown_keys_ignored (p1 p2 : Patient)
    (h1 : p1 "HE4" = p2 "HE4") (h2 : p1 "AFP" = p2 "AFP")
    (h3 : p1 "CA19-9" = p2 "CA19-9") :
    rank_classes p1 = rank_classes p2 := by
  have hs : scoreList p1 CLASS_MARKERS = scoreList p2 CLASS_MARKERS := by
    simp only [CLASS_MARKERS, scoreList, ALL_MARKERS, HEALTHY, List.foldl, h1, h2, h3]
  unfold rank_classes
  rw [hs]

theorem claim_C10_witness :
    bareP "HE4" = extraKeyP "HE4" ∧ bareP "AFP" = extraKeyP "AFP" ∧
    bareP "CA19-9" = extraKeyP "CA19-9" ∧
    rank_classes bareP = rank_classes extraKeyP :=
  ⟨rfl, rfl, rfl, claim_C10_unknown_keys_ignored bareP extraKeyP rfl rfl rfl⟩

/-- C3, counterexample to the claim as stated: on a record lacking the
HE4 reading, the code fails with the plain dict-lookup error naming only
the marker (Python `KeyError: HE4`), not with a
`MissingSignalMarkerError` naming the class and the marker. -/
theorem claim_C3_counterexample :
    rank_classes noHE4P = Except.error (PyError.keyError "HE4") ∧
    rank_classes noHE4P ≠
      Except.error (PyError.missingSignalMarkerError "Ovarian_Early" "HE4") := by
  have h : rank_classes noHE4P = Except.error (PyError.keyError "HE4") := by
    simp [rank_classes, scoreList, CLASS_MARKERS, noHE4P]
  refine ⟨h, ?_⟩
  rw [h]
  simp

/-- C3, amended: on every record lacking a reading for some signal
marker, `rank_classes` and `predict_class` fail — with a `KeyError`
naming the (first) missing signal marker, which is the signal marker of
some class — and in particular never default the missing reading to its
mean. -/
theorem claim_C3_missing_signal_fails (p : Patient)
    (h : p "HE4" = none ∨ p "AFP" = none ∨ p "CA19-9" = none) :
    ∃ m, p m = none ∧ (∃ cls mu var, (cls, m, mu, var) ∈ CLASS_MARKERS) ∧
      rank_classes p = Except.error (PyError.keyError m) ∧
      predict_class p = Except.error (PyError.keyError m) := by
  cases hH : p "HE4" with
  | none =>
    refine ⟨"HE4", hH, ⟨"Ovarian_Early", 151, 6348, by simp [CLASS_MARKERS]⟩, ?_, ?_⟩
    · simp [rank_classes, scoreList, CLASS_MARKERS, hH]
    · simp [predict_class, rank_classes, scoreList, CLASS_MARKERS, hH]
  | some a =>
    cases hA : p "AFP" with
    | none =>
      refine ⟨"AFP", hA,
        ⟨"Liver_Overall", 450, 2250000, by simp [CLASS_MARKERS]⟩, ?_, ?_⟩
      · simp [rank_classes, scoreList, CLASS_MARKERS, hH, hA]
      · simp [predict_class, rank_classes, scoreList, CLASS_MARKERS, hH, hA]
    | some b =>
      cases hC : p "CA19-9" with
      | none =>
        refine ⟨"CA19-9", hC,
          ⟨"Pancreatic_Overall", 1750, 3500000, by simp [CLASS_MARKERS]⟩, ?_, ?_⟩
        · simp [rank_classes, scoreList, CLASS_MARKERS, hH, hA, hC]
        · simp [predict_class, rank_classes, scoreList, CLASS_MARKERS, hH, hA, hC]
      | some c =>
        rw [hH, hA, hC] at h
        rcases h with h | h | h <;> simp at h

theorem claim_C3_witness :
    (noCA199P "HE4" = none ∨ noCA199P "AFP" = none ∨ noCA199P "CA19-9" = none) ∧
    ∃ m, noCA199P m = none ∧ (∃ cls mu var, (cls, m, mu, var) ∈ CLASS_MARKERS) ∧
      rank_classes noCA199P = Except.error (PyError.keyError m) ∧
      predict_class noCA199P = Except.error (PyError.keyError m) :=
  ⟨Or.inr (Or.inr rfl), claim_C3_missing_signal_fails noCA199P (Or.inr (Or.inr rfl))⟩

/-- C1: on a record with a reading for every signal marker, the scoring
loop assigns to each class `(cls, signal, mu, var)` of the model the raw
log-score `logPrior + logGaussianPdf(x_signal, mu, var)` plus the sum,
over every other known marker present in the record, of the
healthy-baseline log-pdf of its reading (`specHealthySum`, worded as in
the specification); absent markers contribute no term, and the log-prior
is `-ln(number of classes) = -ln 10`. -/
theorem claim_C1_raw_score (p : Patient) (a b c : ℝ)
    (ha : p "HE4" = some a) (hb : p "AFP" = some b) (hc : p "CA19-9" = some c)
    (cls signal : String) (mu var : ℝ)
    (hmem : (cls, signal, mu, var) ∈ CLASS_MARKERS) :
    LOG_PRIOR = -Real.log 10 ∧
    ∃ x sc, p signal = some x ∧ scoreList p CLASS_MARKERS = Except.ok sc ∧
      (cls, LOG_PRIOR + logpdf x mu var + specHealthySum p signal) ∈ sc := by
  have hlp : LOG_PRIOR = -Real.log 10 := by
    norm_num [LOG_PRIOR, CLASS_MARKERS]
  have hsumH : specHealthySum p "HE4" = logpdf b 5 9 + logpdf c 20 100 := by
    simp [specHealthySum, ALL_MARKERS, HEALTHY, hb, hc]
    norm_num
  have hsumA : specHealthySum p "AFP" = logpdf a 60 225 + logpdf c 20 100 := by
    simp [specHealthySum, ALL_MARKERS, HEALTHY, ha, hc]
    norm_num
  have hsumC : specHealthySum p "CA19-9" = logpdf a 60 225 + logpdf b 5 9 := by
    simp [specHealthySum, ALL_MARKERS, HEALTHY, ha, hb]
    norm_num
  refine ⟨hlp, ?_⟩
  simp only [CLASS_MARKERS, List.mem_cons, List.not_mem_nil, or_false,
    Prod.mk.injEq] at hmem
  rcases hmem with ⟨rfl, rfl, rfl, rfl⟩ | ⟨rfl, rfl, rfl, rfl⟩ |
    ⟨rfl, rfl, rfl, rfl⟩ | ⟨rfl, rfl, rfl, rfl⟩ | ⟨rfl, rfl, rfl, rfl⟩ |
    ⟨rfl, rfl, rfl, rfl⟩ | ⟨rfl, rfl, rfl, rfl⟩ | ⟨rfl, rfl, rfl, rfl⟩ |
    ⟨rfl, rfl, rfl, rfl⟩ | ⟨rfl, rfl, rfl, rfl⟩
  · refine ⟨a, scoresOf a b c, ha, scoreList_ok p a b c ha hb hc, ?_⟩
    have he : LOG_PRIOR + logpdf a 151 6348 + specHealthySum p "HE4"
        = LOG_PRIOR + logpdf a 151 6348 + logpdf b 5 9 + logpdf c 20 100 := by
      rw [hsumH]; ring
    rw [he]
    simp [scoresOf]
  · refine ⟨a, scoresOf a b c, ha, scoreList_ok p a b c ha hb hc, ?_⟩
    have he : LOG_PRIOR + logpdf a 570 84840 + specHealthySum p "HE4"
        = LOG_PRIOR + logpdf a 570 84840 + logpdf b 5 9 + logpdf c 20 100 := by
      rw [hsumH]; ring
    rw [he]
    simp [scoresOf]
  · refine ⟨b, scoresOf a b c, hb, scoreList_ok p a b c ha hb hc, ?_⟩
    have he : LOG_PRIOR + logpdf b 450 2250000 + specHealthySum p "AFP"
        = LOG_PRIOR + logpdf b 450 2250000 + logpdf a 60 225 + logpdf c 20 100 := by
      rw [hsumA]; ring
    rw [he]
    simp [scoresOf]
  · refine ⟨b, scoresOf a b c, hb, scoreList_ok p a b c ha hb hc, ?_⟩
    have he : LOG_PRIOR + logpdf b 100 7500 + specHealthySum p "AFP"
        = LOG_PRIOR + logpdf b 100 7500 + logpdf a 60 225 + logpdf c 20 100 := by
      rw [hsumA]; ring
    rw [he]
    simp [scoresOf]
  · refine ⟨b, scoresOf a b c, hb, scoreList_ok p a b c ha hb hc, ?_⟩
    have he : LOG_PRIOR + logpdf b 600 450000 + specHealthySum p "AFP"
        = LOG_PRIOR + logpdf b 600 450000 + logpdf a 60 225 + logpdf c 20 100 := by
      rw [hsumA]; ring
    rw [he]
    simp [scoresOf]
  · refine ⟨b, scoresOf a b c, hb, scoreList_ok p a b c ha hb hc, ?_⟩
    have he : LOG_PRIOR + logpdf b 6000 15000000 + specHealthySum p "AFP"
        = LOG_PRIOR + logpdf b 6000 15000000 + logpdf a 60 225 + logpdf c 20 100 := by
      rw [hsumA]; ring
    rw [he]
    simp [scoresOf]
  · refine ⟨c, scoresOf a b c, hc, scoreList_ok p a b c ha hb hc, ?_⟩
    have he : LOG_PRIOR + logpdf c 1750 3500000 + specHealthySum p "CA19-9"
        = LOG_PRIOR + logpdf c 1750 3500000 + logpdf a 60 225 + logpdf b 5 9 := by
      rw [hsumC]; ring
    rw [he]
    simp [scoresOf]
  · refine ⟨c, scoresOf a b c, hc, scoreList_ok p a b c ha hb hc, ?_⟩
    have he : LOG_PRIOR + logpdf c 140 17500 + specHealthySum p "CA19-9"
        = LOG_PRIOR + logpdf c 140 17500 + logpdf a 60 225 + logpdf b 5 9 := by
      rw [hsumC]; ring
    rw [he]
    simp [scoresOf]
  · refine ⟨c, scoresOf a b c, hc, scoreList_ok p a b c ha hb hc, ?_⟩
    have he : LOG_PRIOR + logpdf c 950 750000 + specHealthySum p "CA19-9"
        = LOG_PRIOR + logpdf c 950 750000 + logpdf a 60 225 + logpdf b 5 9 := by
      rw [hsumC]; ring
    rw [he]
    simp [scoresOf]
  · refine ⟨c, scoresOf a b c, hc, scoreList_ok p a b c ha hb hc, ?_⟩
    have he : LOG_PRIOR + logpdf c 12500 35000000 + specHealthySum p "CA19-9"
        = LOG_PRIOR + logpdf c 12500 35000000 + logpdf a 60 225 + logpdf b 5 9 := by
      rw [hsumC]; ring
    rw [he]
    simp [scoresOf]

theorem claim_C1_witness :
    aliceP "HE4" = some 180 ∧ aliceP "AFP" = some 6 ∧ aliceP "CA19-9" = some 22 ∧
    ("Ovarian_Early", "HE4", (151 : ℝ), (6348 : ℝ)) ∈ CLASS_MARKERS ∧
    (LOG_PRIOR = -Real.log 10 ∧
     ∃ x sc, aliceP "HE4" = some x ∧
       scoreList aliceP CLASS_MARKERS = Except.ok sc ∧
       ("Ovarian_Early",
         LOG_PRIOR + logpdf x 151 6348 + specHealthySum aliceP "HE4") ∈ sc) :=
  ⟨rfl, rfl, rfl, by simp [CLASS_MARKERS],
   claim_C1_raw_score aliceP 180 6 22 rfl rfl rfl "Ovarian_Early" "HE4" 151 6348
     (by simp [CLASS_MARKERS])⟩

/-! ### Strict score comparisons for the two worked examples -/

lemma alice_lt_ovarian_late :
    LOG_PRIOR + logpdf 180 570 84840 + logpdf 6 5 9 + logpdf 22 20 100
      < LOG_PRIOR + logpdf 180 151 6348 + logpdf 6 5 9 + logpdf 22 20 100 := by
  have e1 := logpdf_expand 180 151 6348 (by norm_num)
  have e2 := logpdf_expand 180 570 84840 (by norm_num)
  linarith [e1, e2, log_bounds_6348.1, log_bounds_6348.2,
    log_bounds_84840.1, log_bounds_84840.2]

lemma alice_lt_liver_overall :
    LOG_PRIOR + logpdf 6 450 2250000 + logpdf 180 60 225 + logpdf 22 20 100
      < LOG_PRIOR + logpdf 180 151 6348 + logpdf 6 5 9 + logpdf 22 20 100 := by
  have e1 := logpdf_expand 180 151 6348 (by norm_num)
  have e2 := logpdf_expand 6 5 9 (by norm_num)
  have e3 := logpdf_expand 6 450 2250000 (by norm_num)
  have e4 := logpdf_expand 180 60 225 (by norm_num)
  linarith [e1, e2, e3, e4, log_bounds_6348.1, log_bounds_6348.2,
    log_bounds_9.1, log_bounds_9.2, log_bounds_2250000.1, log_bounds_2250000.2,
    log_bounds_225.1, log_bounds_225.2]

lemma alice_lt_liver_i :
    LOG_PRIOR + logpdf 6 100 7500 + logpdf 180 60 225 + logpdf 22 20 100
      < LOG_PRIOR + logpdf 180 151 6348 + logpdf 6 5 9 + logpdf 22 20 100 := by
  have e1 := logpdf_expand 180 151 6348 (by norm_num)
  have e2 := logpdf_expand 6 5 9 (by norm_num)
  have e3 := logpdf_expand 6 100 7500 (by norm_num)
  have e4 := logpdf_expand 180 60 225 (by norm_num)
  linarith [e1, e2, e3, e4, log_bounds_6348.1, log_bounds_6348.2,
    log_bounds_9.1, log_bounds_9.2, log_bounds_7500.1, log_bounds_7500.2,
    log_bounds_225.1, log_bounds_225.2]

lemma alice_lt_liver_ii_iii :
    LOG_PRIOR + logpdf 6 600 450000 + logpdf 180 60 225 + logpdf 22 20 100
      < LOG_PRIOR + logpdf 180 151 6348 + logpdf 6 5 9 + logpdf 22 20 100 := by
  have e1 := logpdf_expand 180 151 6348 (by norm_num)
  have e2 := logpdf_expand 6 5 9 (by norm_num)
  have e3 := logpdf_expand 6 600 450000 (by norm_num)
  have e4 := logpdf_expand 180 60 225 (by norm_num)
  linarith [e1, e2, e3, e4, log_bounds_6348.1, log_bounds_6348.2,
    log_bounds_9.1, log_bounds_9.2, log_bounds_450000.1, log_bounds_450000.2,
    log_bounds_225.1, log_bounds_225.2]

lemma alice_lt_liver_iv :
    LOG_PRIOR + logpdf 6 6000 15000000 + logpdf 180 60 225 + logpdf 22 20 100
      < LOG_PRIOR + logpdf 180 151 6348 + logpdf 6 5 9 + logpdf 22 20 100 := by
  have e1 := logpdf_expand 180 151 6348 (by norm_num)
  have e2 := logpdf_expand 6 5 9 (by norm_num)
  have e3 := logpdf_expand 6 6000 15000000 (by norm_num)
  have e4 := logpdf_expand 180 60 225 (by norm_num)
  linarith [e1, e2, e3, e4, log_bounds_6348.1, log_bounds_6348.2,
    log_bounds_9.1, log_bounds_9.2, log_bounds_15000000.1, log_bounds_15000000.2,
    log_bounds_225.1, log_bounds_225.2]

lemma alice_lt_panc_overall :
    LOG_PRIOR + logpdf 22 1750 3500000 + logpdf 180 60 225 + logpdf 6 5 9
      < LOG_PRIOR + logpdf 180 151 6348 + logpdf 6 5 9 + logpdf 22 20 100 := by
  have e1 := logpdf_expand 180 151 6348 (by norm_num)
  have e2 := logpdf_expand 22 20 100 (by norm_num)
  have e3 := logpdf_expand 22 1750 3500000 (by norm_num)
  have e4 := logpdf_expand 180 60 225 (by norm_num)
  linarith [e1, e2, e3, e4, log_bounds_6348.1, log_bounds_6348.2,
    log_bounds_100.1, log_bounds_100.2, log_bounds_3500000.1, log_bounds_3500000.2,
    log_bounds_225.1, log_bounds_225.2]

lemma alice_lt_panc_i :
    LOG_PRIOR + logpdf 22 140 17500 + logpdf 180 60 225 + logpdf 6 5 9
      < LOG_PRIOR + logpdf 180 151 6348 + logpdf 6 5 9 + logpdf 22 20 100 := by
  have e1 := logpdf_expand 180 151 6348 (by norm_num)
  have e2 := logpdf_expand 22 20 100 (by norm_num)
  have e3 := logpdf_expand 22 140 17500 (by norm_num)
  have e4 := logpdf_expand 180 60 225 (by norm_num)
  linarith [e1, e2, e3, e4, log_bounds_6348.1, log_bounds_6348.2,
    log_bounds_100.1, log_bounds_100.2, log_bounds_17500.1, log_bounds_17500.2,
    log_bounds_225.1, log_bounds_225.2]

lemma alice_lt_panc_ii_iii :
    LOG_PRIOR + logpdf 22 950 750000 + logpdf 180 60 225 + logpdf 6 5 9
      < LOG_PRIOR + logpdf 180 151 6348 + logpdf 6 5 9 + logpdf 22 20 100 := by
  have e1 := logpdf_expand 180 151 6348 (by norm_num)
  have e2 := logpdf_expand 22 20 100 (by norm_num)
  have e3 := logpdf_expand 22 950 750000 (by norm_num)
  have e4 := logpdf_expand 180 60 225 (by norm_num)
  linarith [e1, e2, e3, e4, log_bounds_6348.1, log_bounds_6348.2,
    log_bounds_100.1, log_bounds_100.2, log_bounds_750000.1, log_bounds_750000.2,
    log_bounds_225.1, log_bounds_225.2]

lemma alice_lt_panc_iv :
    LOG_PRIOR + logpdf 22 12500 35000000 + logpdf 180 60 225 + logpdf 6 5 9
      < LOG_PRIOR + logpdf 180 151 6348 + logpdf 6 5 9 + logpdf 22 20 100 := by
  have e1 := logpdf_expand 180 151 6348 (by norm_num)
  have e2 := logpdf_expand 22 20 100 (by norm_num)
  have e3 := logpdf_expand 22 12500 35000000 (by norm_num)
  have e4 := logpdf_expand 180 60 225 (by norm_num)
  linarith [e1, e2, e3, e4, log_bounds_6348.1, log_bounds_6348.2,
    log_bounds_100.1, log_bounds_100.2, log_bounds_35000000.1, log_bounds_35000000.2,
    log_bounds_225.1, log_bounds_225.2]

lemma drew_gt_ovarian_early :
    LOG_PRIOR + logpdf 70 151 6348 + logpdf 8 5 9 + logpdf 6000 20 100
      < LOG_PRIOR + logpdf 6000 12500 35000000 + logpdf 70 60 225 + logpdf 8 5 9 := by
  have e1 := logpdf_expand 6000 12500 35000000 (by norm_num)
  have e2 := logpdf_expand 70 60 225 (by norm_num)
  have e3 := logpdf_expand 70 151 6348 (by norm_num)
  have e4 := logpdf_expand 6000 20 100 (by norm_num)
  linarith [e1, e2, e3, e4, log_bounds_35000000.1, log_bounds_35000000.2,
    log_bounds_225.1, log_bounds_225.2, log_bounds_6348.1, log_bounds_6348.2,
    log_bounds_100.1, log_bounds_100.2]

lemma drew_gt_ovarian_late :
    LOG_PRIOR + logpdf 70 570 84840 + logpdf 8 5 9 + logpdf 6000 20 100
      < LOG_PRIOR + logpdf 6000 12500 35000000 + logpdf 70 60 225 + logpdf 8 5 9 := by
  have e1 := logpdf_expand 6000 12500 35000000 (by norm_num)
  have e2 := logpdf_expand 70 60 225 (by norm_num)
  have e3 := logpdf_expand 70 570 84840 (by norm_num)
  have e4 := logpdf_expand 6000 20 100 (by norm_num)
  linarith [e1, e2, e3, e4, log_bounds_35000000.1, log_bounds_35000000.2,
    log_bounds_225.1, log_bounds_225.2, log_bounds_84840.1, log_bounds_84840.2,
    log_bounds_100.1, log_bounds_100.2]

lemma drew_gt_liver_overall :
    LOG_PRIOR + logpdf 8 450 2250000 + logpdf 70 60 225 + logpdf 6000 20 100
      < LOG_PRIOR + logpdf 6000 12500 35000000 + logpdf 70 60 225 + logpdf 8 5 9 := by
  have e1 := logpdf_expand 6000 12500 35000000 (by norm_num)
  have e2 := logpdf_expand 8 5 9 (by norm_num)
  have e3 := logpdf_expand 8 450 2250000 (by norm_num)
  have e4 := logpdf_expand 6000 20 100 (by norm_num)
  linarith [e1, e2, e3, e4, log_bounds_35000000.1, log_bounds_35000000.2,
    log_bounds_9.1, log_bounds_9.2, log_bounds_2250000.1, log_bounds_2250000.2,
    log_bounds_100.1, log_bounds_100.2]

lemma drew_gt_liver_i :
    LOG_PRIOR + logpdf 8 100 7500 + logpdf 70 60 225 + logpdf 6000 20 100
      < LOG_PRIOR + logpdf 6000 12500 35000000 + logpdf 70 60 225 + logpdf 8 5 9 := by
  have e1 := logpdf_expand 6000 12500 35000000 (by norm_num)
  have e2 := logpdf_expand 8 5 9 (by norm_num)
  have e3 := logpdf_expand 8 100 7500 (by norm_num)
  have e4 := logpdf_expand 6000 20 100 (by norm_num)
  linarith [e1, e2, e3, e4, log_bounds_35000000.1, log_bounds_35000000.2,
    log_bounds_9.1, log_bounds_9.2, log_bounds_7500.1, log_bounds_7500.2,
    log_bounds_100.1, log_bounds_100.2]

lemma drew_gt_liver_ii_iii :
    LOG_PRIOR + logpdf 8 600 450000 + logpdf 70 60 225 + logpdf 6000 20 100
      < LOG_PRIOR + logpdf 6000 12500 35000000 + logpdf 70 60 225 + logpdf 8 5 9 := by
  have e1 := logpdf_expand 6000 12500 35000000 (by norm_num)
  have e2 := logpdf_expand 8 5 9 (by norm_num)
  have e3 := logpdf_expand 8 600 450000 (by norm_num)
  have e4 := logpdf_expand 6000 20 100 (by norm_num)
  linarith [e1, e2, e3, e4, log_bounds_35000000.1, log_bounds_35000000.2,
    log_bounds_9.1, log_bounds_9.2, log_bounds_450000.1, log_bounds_450000.2,
    log_bounds_100.1, log_bounds_100.2]

lemma drew_gt_liver_iv :
    LOG_PRIOR + logpdf 8 6000 15000000 + logpdf 70 60 225 + logpdf 6000 20 100
      < LOG_PRIOR + logpdf 6000 12500 35000000 + logpdf 70 60 225 + logpdf 8 5 9 := by
  have e1 := logpdf_expand 6000 12500 35000000 (by norm_num)
  have e2 := logpdf_expand 8 5 9 (by norm_num)
  have e3 := logpdf_expand 8 6000 15000000 (by norm_num)
  have e4 := logpdf_expand 6000 20 100 (by norm_num)
  linarith [e1, e2, e3, e4, log_bounds_35000000.1, log_bounds_35000000.2,
    log_bounds_9.1, log_bounds_9.2, log_bounds_15000000.1, log_bounds_15000000.2,
    log_bounds_100.1, log_bounds_100.2]

lemma drew_gt_panc_overall :
    LOG_PRIOR + logpdf 6000 1750 3500000 + logpdf 70 60 225 + logpdf 8 5 9
      < LOG_PRIOR + logpdf 6000 12500 35000000 + logpdf 70 60 225 + logpdf 8 5 9 := by
  have e1 := logpdf_expand 6000 12500 35000000 (by norm_num)
  have e2 := logpdf_expand 6000 1750 3500000 (by norm_num)
  linarith [e1, e2, log_bounds_35000000.1, log_bounds_35000000.2,
    log_bounds_3500000.1, log_bounds_3500000.2]

lemma drew_gt_panc_i :
    LOG_PRIOR + logpdf 6000 140 17500 + logpdf 70 60 225 + logpdf 8 5 9
      < LOG_PRIOR + logpdf 6000 12500 35000000 + logpdf 70 60 225 + logpdf 8 5 9 := by
  have e1 := logpdf_expand 6000 12500 35000000 (by norm_num)
  have e2 := logpdf_expand 6000 140 17500 (by norm_num)
  linarith [e1, e2, log_bounds_35000000.1, log_bounds_35000000.2,
    log_bounds_17500.1, log_bounds_17500.2]

lemma drew_gt_panc_ii_iii :
    LOG_PRIOR + logpdf 6000 950 750000 + logpdf 70 60 225 + logpdf 8 5 9
      < LOG_PRIOR + logpdf 6000 12500 35000000 + logpdf 70 60 225 + logpdf 8 5 9 := by
  have e1 := logpdf_expand 6000 12500 35000000 (by norm_num)
  have e2 := logpdf_expand 6000 950 750000 (by norm_num)
  linarith [e1, e2, log_bounds_35000000.1, log_bounds_35000000.2,
    log_bounds_750000.1, log_bounds_750000.2]

/-! ### Head of the ranked list on the two worked examples -/

lemma alice_head (L : ℝ) (h : String × ℝ) (t : List (String × ℝ))
    (hht : ((scoresOf 180 6 22).map (fun cs =>
        (cs.1, Real.exp (cs.2 - L)))).mergeSort (fun u v => decide (v.2 ≤ u.2))
      = h :: t) :
    h.1 = "Ovarian_Early" := by
  obtain ⟨hmem, hmax⟩ := mergeSort_head_max hht
  have hOE : ("Ovarian_Early",
      Real.exp (LOG_PRIOR + logpdf 180 151 6348 + logpdf 6 5 9 + logpdf 22 20 100 - L))
      ∈ (scoresOf 180 6 22).map (fun cs => (cs.1, Real.exp (cs.2 - L))) := by
    simp [scoresOf]
  have hle := hmax _ hOE
  simp only at hle
  simp only [scoresOf, List.map_cons, List.map_nil, List.mem_cons,
    List.not_mem_nil, or_false] at hmem
  rcases hmem with hE | hE | hE | hE | hE | hE | hE | hE | hE | hE
  · rw [hE]
  · exfalso
    rw [hE] at hle
    simp only at hle
    have hcmp := Real.exp_le_exp.mp hle
    linarith [alice_lt_ovarian_late]
  · exfalso
    rw [hE] at hle
    simp only at hle
    have hcmp := Real.exp_le_exp.mp hle
    linarith [alice_lt_liver_overall]
  · exfalso
    rw [hE] at hle
    simp only at hle
    have hcmp := Real.exp_le_exp.mp hle
    linarith [alice_lt_liver_i]
  · exfalso
    rw [hE] at hle
    simp only at hle
    have hcmp := Real.exp_le_exp.mp hle
    linarith [alice_lt_liver_ii_iii]
  · exfalso
    rw [hE] at hle
    simp only at hle
    have hcmp := Real.exp_le_exp.mp hle
    linarith [alice_lt_liver_iv]
  · exfalso
    rw [hE] at hle
    simp only at hle
    have hcmp := Real.exp_le_exp.mp hle
    linarith [alice_lt_panc_overall]
  · exfalso
    rw [hE] at hle
    simp only at hle
    have hcmp := Real.exp_le_exp.mp hle
    linarith [alice_lt_panc_i]
  · exfalso
    rw [hE] at hle
    simp only at hle
    have hcmp := Real.exp_le_exp.mp hle
    linarith [alice_lt_panc_ii_iii]
  · exfalso
    rw [hE] at hle
    simp only at hle
    have hcmp := Real.exp_le_exp.mp hle
    linarith [alice_lt_panc_iv]

lemma drew_head (L : ℝ) (h : String × ℝ) (t : List (String × ℝ))
    (hht : ((scoresOf 70 8 6000).map (fun cs =>
        (cs.1, Real.exp (cs.2 - L)))).mergeSort (fun u v => decide (v.2 ≤ u.2))
      = h :: t) :
    h.1 = "Pancreatic_Stage_IV" := by
  obtain ⟨hmem, hmax⟩ := mergeSort_head_max hht
  have hPIV : ("Pancreatic_Stage_IV",
      Real.exp (LOG_PRIOR + logpdf 6000 12500 35000000 + logpdf 70 60 225 + logpdf 8 5 9 - L))
      ∈ (scoresOf 70 8 6000).map (fun cs => (cs.1, Real.exp (cs.2 - L))) := by
    simp [scoresOf]
  have hle := hmax _ hPIV
  simp only at hle
  simp only [scoresOf, List.map_cons, List.map_nil, List.mem_cons,
    List.not_mem_nil, or_false] at hmem
  rcases hmem with hE | hE | hE | hE | hE | hE | hE | hE | hE | hE
  · exfalso
    rw [hE] at hle
    simp only at hle
    have hcmp := Real.exp_le_exp.mp hle
    linarith [drew_gt_ovarian_early]
  · exfalso
    rw [hE] at hle
    simp only at hle
    have hcmp := Real.exp_le_exp.mp hle
    linarith [drew_gt_ovarian_late]
  · exfalso
    rw [hE] at hle
    simp only at hle
    have hcmp := Real.exp_le_exp.mp hle
    linarith [drew_gt_liver_overall]
  · exfalso
    rw [hE] at hle
    simp only at hle
    have hcmp := Real.exp_le_exp.mp hle
    linarith [drew_gt_liver_i]
  · exfalso
    rw [hE] at hle
    simp only at hle
    have hcmp := Real.exp_le_exp.mp hle
    linarith [drew_gt_liver_ii_iii]
  · exfalso
    rw [hE] at hle
    simp only at hle
    have hcmp := Real.exp_le_exp.mp hle
    linarith [drew_gt_liver_iv]
  · exfalso
    rw [hE] at hle
    simp only at hle
    have hcmp := Real.exp_le_exp.mp hle
    linarith [drew_gt_panc_overall]
  · exfalso
    rw [hE] at hle
    simp only at hle
    have hcmp := Real.exp_le_exp.mp hle
    linarith [drew_gt_panc_i]
  · exfalso
    rw [hE] at hle
    simp only at hle
    have hcmp := Real.exp_le_exp.mp hle
    linarith [drew_gt_panc_ii_iii]
  · rw [hE]

lemma alice_predict : ∃ r, predict_class aliceP = Except.ok ("Ovarian_Early", r) := by
  have hrank := rank_classes_ok aliceP 180 6 22 rfl rfl rfl
  cases hM : ((scoresOf 180 6 22).map (fun cs =>
      (cs.1, Real.exp (cs.2 - _logsumexp ((scoresOf 180 6 22).map Prod.snd))))).mergeSort
      (fun u v => decide (v.2 ≤ u.2)) with
  | nil =>
    exfalso
    have hlen := congrArg List.length hM
    rw [List.length_mergeSort] at hlen
    simp [scoresOf] at hlen
  | cons h t =>
    have hh1 : h.1 = "Ovarian_Early" := alice_head _ h t hM
    refine ⟨h :: t, ?_⟩
    unfold predict_class
    rw [hrank, hM, ← hh1]

lemma drew_predict : ∃ r, predict_class drewP = Except.ok ("Pancreatic_Stage_IV", r) := by
  have hrank := rank_classes_ok drewP 70 8 6000 rfl rfl rfl
  cases hM : ((scoresOf 70 8 6000).map (fun cs =>
      (cs.1, Real.exp (cs.2 - _logsumexp ((scoresOf 70 8 6000).map Prod.snd))))).mergeSort
      (fun u v => decide (v.2 ≤ u.2)) with
  | nil =>
    exfalso
    have hlen := congrArg List.length hM
    rw [List.length_mergeSort] at hlen
    simp [scoresOf] at hlen
  | cons h t =>
    have hh1 : h.1 = "Pancreatic_Stage_IV" := drew_head _ h t hM
    refine ⟨h :: t, ?_⟩
    unfold predict_class
    rw [hrank, hM, ← hh1]

/-- C7: on the two worked-example records, `predict_class` returns the
stated class as the top-ranked element: HE4 180.0, AFP 6.0, CA19-9 22.0
predicts Ovarian_Early and HE4 70.0, AFP 8.0, CA19-9 6000.0 predicts
Pancreatic_Stage_IV. -/
theorem claim_C7_worked_examples :
    (∃ r, predict_class aliceP = Except.ok ("Ovarian_Early", r)) ∧
    (∃ r, predict_class drewP = Except.ok ("Pancreatic_Stage_IV", r)) :=
  ⟨alice_predict, drew_predict⟩
